import Mathlib

/-!
Verification of the archive reconciliation state (`extracted` in
`salt/states/archive.py`).  The function is embedded shallowly: the ambient
capability map `__salt__` and the module-level helpers it calls become an
explicit record of collaborator functions, the ambient `__opts__` becomes an
explicit options record, and every collaborator invocation is additionally
recorded in an effect trace so that frame properties ("no fetch, no
mutation") are provable.
-/

namespace ArchiveState

/-- Result of `cmd.run_all`: exit code plus captured output streams. -/
structure CmdResult where
  retcode : Int
  stdout : String
  stderr : String
deriving DecidableEq, Repr

/-- The `files` value flowing into the final accounting: the zip/rar/tarfile
branches produce a list of entry names, the external-tar branch a raw output
string (`len(files)` in the source works on either). -/
inductive Files where
  | entries : List String → Files
  | raw : String → Files
deriving DecidableEq, Repr

/-- Python `len(files)` for either shape. -/
def Files.len : Files → Nat
  | .entries l => l.length
  | .raw s => s.length

/-- The `ret['changes']` dictionary: empty, the success-path change set
(`directories_created` and `extracted_files`), or the raw command result
stored on external-tool failure. -/
inductive Changes where
  | empty : Changes
  | extractedSet : List String → Files → Changes
  | cmdOutput : CmdResult → Changes
deriving DecidableEq, Repr

/-- The `ret` dictionary of a salt state call: `result` is the tri-state
True/False/None of the source, modelled as `Option Bool`. -/
structure StateResult where
  name : String
  result : Option Bool
  changes : Changes
  comment : String
deriving DecidableEq, Repr

/-- One collaborator invocation, recorded in program order. -/
inductive Effect where
  | dirExistsQ : String → Effect
  | fileExistsQ : String → Effect
  | pathExistsQ : String → Effect
  | fetchCall : String → String → Option String → Effect
  | makedirs : String → Effect
  | unzipCall : String → String → Effect
  | unrarCall : String → String → Effect
  | tarLibExtract : String → String → Effect
  | runShell : String → String → Effect
  | shellProbe : String → Effect
  | unlink : String → Effect
  | removePath : String → Effect
deriving DecidableEq, Repr

/-- Effects that mutate filesystem state or invoke a fetch/extraction
capability; existence queries and the read-only tar-variant probe are not
mutations. -/
def Effect.isMutation : Effect → Bool
  | .dirExistsQ _ => false
  | .fileExistsQ _ => false
  | .pathExistsQ _ => false
  | .shellProbe _ => false
  | _ => true

/-- The ambient capabilities consumed by `extracted`, one field per
`__salt__`/library call: `file.directory_exists`, `file.file_exists`,
`os.path.exists`, the `state.high`-driven `file.managed` fetch (already
projected to the first value of its result dictionary, as line 123 of the
source does), `archive.unzip`, `archive.unrar`, the `tarfile` open +
`getnames` + `extractall` capability, `cmd.run_all` and `cmd.retcode`. -/
structure Collab where
  directory_exists : String → Bool
  file_exists : String → Bool
  path_exists : String → Bool
  state_high_fetch : String → String → Option String → StateResult
  unzip : String → String → List String
  unrar : String → String → List String
  tar_getnames : String → List String
  cmd_run_all : String → String → CmdResult
  cmd_retcode : String → Int

/-- The ambient `__opts__` fields the function reads. -/
structure Opts where
  cachedir : String
  test : Bool
deriving Repr

/-- `os.path.join` for the shapes arising here (second component produced by
`replace('/', '_')`, hence relative unless empty). -/
def osPathJoin (a b : String) : String :=
  if b.data.head? = some '/' then b
  else if a = "" ∨ a.data.getLast? = some '/' then a ++ b
  else a ++ "/" ++ b

/-- Python `str.replace` specialised to a one-character pattern, the only
shape used here (`if_missing.replace('/', '_')`): every occurrence of the
character is substituted. -/
def replaceChar (s : String) (a b : Char) : String :=
  ⟨s.data.map (fun c => if c = a then b else c)⟩

/-- The deterministic cache path:
`os.path.join(cachedir, if_missing.replace('/', '_') + '.' + archive_format)`. -/
def cacheFilename (cachedir ifm fmt : String) : String :=
  osPathJoin cachedir ((replaceChar ifm '/' '_') ++ "." ++ fmt)

/-- Python `opt in tar_options` for the single-character flags `x`, `f`:
substring containment of a one-character string is character membership. -/
def hasFlag (s : String) (c : Char) : Bool :=
  s.data.contains c

/-- The option normalization loop:
`for opt in ['x', 'f']: if not opt in tar_options: tar_options = '-{opt} {tar_options}'`. -/
def normalizeTarOptions (tar_options : String) : String :=
  (['x', 'f']).foldl
    (fun t opt => if hasFlag t opt then t else "-" ++ String.singleton opt ++ " " ++ t)
    tar_options

/-- The external tar command line:
`'tar {0} "{1}"'.format(tar_options, filename)`. -/
def tarCommand (tar_options filename : String) : String :=
  "tar " ++ tar_options ++ " \x22" ++ filename ++ "\x22"

/-- Result of the format dispatch (source lines 138-164): either a `files`
value, or the early `return` taken when the external tar tool exits
nonzero.  Each constructor carries the effects the branch performed. -/
inductive DispatchOut where
  | ok : Files → List Effect → DispatchOut
  | toolFail : CmdResult → List Effect → DispatchOut
deriving DecidableEq, Repr

/-- Format dispatch: zip/rar via the archive library capability, tar via
`tarfile` when `tar_options is None`, otherwise via the external tar tool
with normalized options, BSD-variant output selection and the
`'no tar output so far'` placeholder. -/
def dispatch (c : Collab) (fmt : String) (tar_options : Option String)
    (filename name : String) : DispatchOut :=
  if fmt ∈ (["zip", "rar"] : List String) then
    if fmt = "zip" then
      .ok (.entries (c.unzip filename name)) [.unzipCall filename name]
    else
      .ok (.entries (c.unrar filename name)) [.unrarCall filename name]
  else
    match tar_options with
    | none =>
        .ok (.entries (c.tar_getnames filename)) [.tarLibExtract filename name]
    | some topts =>
        let cmd := tarCommand (normalizeTarOptions topts) filename
        let results := c.cmd_run_all cmd name
        if results.retcode ≠ 0 then
          .toolFail results [.runShell cmd name]
        else
          let captured :=
            if c.cmd_retcode "tar --version | grep bsdtar" = 0 then results.stderr
            else results.stdout
          let files := if captured = "" then "no tar output so far" else captured
          .ok (.raw files) [.runShell cmd name, .shellProbe "tar --version | grep bsdtar"]

/-- Final accounting (source lines 165-178): non-empty `files` builds the
change set, sets the success comment and unlinks the cache file unless
`keep`; empty `files` removes `if_missing` and fails. -/
def aggregate (name source ifm filename : String) (keep : Bool)
    (ret0 : StateResult) (files : Files) : StateResult × List Effect :=
  if files.len ≠ 0 then
    ({ ret0 with
        result := some true
        changes := .extractedSet (if ifm ≠ name then [name, ifm] else [name]) files
        comment := source ++ " extracted in " ++ name },
     if keep then [] else [.unlink filename])
  else
    ({ ret0 with
        result := some false
        comment := "Can't extract content of " ++ source },
     [.removePath ifm])

/-- Source lines 130-178: the second `__opts__['test']` short-circuit, then
`file.makedirs(name)`, the format dispatch and the final accounting. -/
def extractPhase (c : Collab) (o : Opts) (name source fmt : String)
    (tar_options : Option String) (ifm filename : String) (keep : Bool)
    (ret0 : StateResult) (trace : List Effect) : StateResult × List Effect :=
  if o.test then
    ({ ret0 with
        result := none
        comment := "Archive " ++ source ++ " would have been extracted in " ++ name },
     trace)
  else
    let t1 := trace ++ [.makedirs name]
    match dispatch c fmt tar_options filename name with
    | .toolFail results dtrace =>
        ({ ret0 with result := some false, changes := .cmdOutput results }, t1 ++ dtrace)
    | .ok files dtrace =>
        let a := aggregate name source ifm filename keep ret0 files
        (a.1, t1 ++ dtrace ++ a.2)

/-- The `extracted` state function, returning the `ret` dictionary together
with the ordered trace of collaborator invocations. -/
def extracted (c : Collab) (o : Opts) (name source archive_format : String)
    (tar_options : Option String) (source_hash : Option String)
    (if_missing : Option String) (keep : Bool) : StateResult × List Effect :=
  let ret0 : StateResult := ⟨name, none, .empty, ""⟩
  if archive_format ∉ (["tar", "rar", "zip"] : List String) then
    ({ ret0 with
        result := some false
        comment := name ++ " is not supported, valids: tar,rar,zip" }, [])
  else
    let ifm := if_missing.getD name
    if c.directory_exists ifm then
      ({ ret0 with result := some true, comment := ifm ++ " already exists" },
       [.dirExistsQ ifm])
    else if c.file_exists ifm then
      ({ ret0 with result := some true, comment := ifm ++ " already exists" },
       [.dirExistsQ ifm, .fileExistsQ ifm])
    else
      let filename := cacheFilename o.cachedir ifm archive_format
      let t0 : List Effect := [.dirExistsQ ifm, .fileExistsQ ifm, .pathExistsQ filename]
      if ¬ c.path_exists filename then
        if o.test then
          ({ ret0 with
              result := none
              comment := "Archive " ++ source ++ " would have been downloaded in cache" },
           t0)
        else
          let fr := c.state_high_fetch filename source source_hash
          let t1 := t0 ++ [.fetchCall filename source source_hash]
          if fr.result ≠ some true then (fr, t1)
          else extractPhase c o name source archive_format tar_options ifm filename keep ret0 t1
      else
        extractPhase c o name source archive_format tar_options ifm filename keep ret0 t0

/-! ### Shared helper lemmas and concrete test doubles -/

theorem hasFlag_append (a b : String) (c : Char) :
    hasFlag (a ++ b) c = (hasFlag a c || hasFlag b c) := by
  simp [hasFlag, String.data_append]

/-- A collaborator record whose existence checks all answer `true`. -/
def collabAllTrue : Collab :=
  ⟨fun _ => true, fun _ => true, fun _ => true,
   fun _ _ _ => ⟨"", some true, .empty, ""⟩,
   fun _ _ => [], fun _ _ => [], fun _ => [],
   fun _ _ => ⟨0, "", ""⟩, fun _ => 0⟩

/-- A collaborator record whose existence checks all answer `false` and whose
fetch reports failure. -/
def collabAllFalse : Collab :=
  ⟨fun _ => false, fun _ => false, fun _ => false,
   fun _ _ _ => ⟨"fetched", some false, .empty, "download failed"⟩,
   fun _ _ => [], fun _ _ => [], fun _ => [],
   fun _ _ => ⟨1, "", ""⟩, fun _ => 1⟩

/-- Marker absent, cache present, `tarfile` yields two entries. -/
def collabTarTwo : Collab :=
  ⟨fun _ => false, fun _ => false, fun _ => true,
   fun _ _ _ => ⟨"", some true, .empty, ""⟩,
   fun _ _ => [], fun _ _ => [], fun _ => ["a.txt", "b.txt"],
   fun _ _ => ⟨0, "", ""⟩, fun _ => 1⟩

/-- Marker absent, cache present, `tarfile` yields no entries. -/
def collabTarEmpty : Collab :=
  ⟨fun _ => false, fun _ => false, fun _ => true,
   fun _ _ _ => ⟨"", some true, .empty, ""⟩,
   fun _ _ => [], fun _ _ => [], fun _ => [],
   fun _ _ => ⟨0, "", ""⟩, fun _ => 1⟩

/-- Marker absent, cache present, external tar tool exits with code 2. -/
def collabToolFail : Collab :=
  ⟨fun _ => false, fun _ => false, fun _ => true,
   fun _ _ _ => ⟨"", some true, .empty, ""⟩,
   fun _ _ => [], fun _ _ => [], fun _ => [],
   fun _ _ => ⟨2, "tar out", "tar err"⟩, fun _ => 1⟩

/-- Marker absent, cache present, external tar tool exits 0 with empty
output, non-BSD variant. -/
def collabToolQuiet : Collab :=
  ⟨fun _ => false, fun _ => false, fun _ => true,
   fun _ _ _ => ⟨"", some true, .empty, ""⟩,
   fun _ _ => [], fun _ _ => [], fun _ => [],
   fun _ _ => ⟨0, "", ""⟩, fun _ => 1⟩

/-- Production-style options: no preview, a fixed cache root. -/
def optsProd : Opts := ⟨"/var/cache", false⟩

/-- Preview-mode options. -/
def optsTest : Opts := ⟨"/var/cache", true⟩

/-! ### Claim theorems -/

/-- C5: for every request whose format is not one of tar, zip, rar the call
returns Failed immediately, with a message listing tar, rar, zip as the
valid values, and the collaborator trace is empty — the check precedes any
filesystem access. -/
theorem unsupported_format_fails_first (c : Collab) (o : Opts)
    (name source fmt : String) (topts shash ifm? : Option String) (keep : Bool)
    (hfmt : fmt ∉ (["tar", "rar", "zip"] : List String)) :
    extracted c o name source fmt topts shash ifm? keep =
      (⟨name, some false, .empty, name ++ " is not supported, valids: tar,rar,zip"⟩, []) := by
  simp [extracted, hfmt]

/-- Witness for C5 at `fmt = "7z"`. -/
theorem unsupported_format_fails_first_witness :
    extracted collabAllTrue optsProd "/opt" "src" "7z" none none none false =
      (⟨"/opt", some false, .empty, "/opt is not supported, valids: tar,rar,zip"⟩, []) :=
  unsupported_format_fails_first collabAllTrue optsProd "/opt" "src" "7z" none none none
    false (by decide)

/-- C10: the unsupported-format message interpolates the request's target
path (`name`), not the invalid format value: it is exactly
`"<name> is not supported, valids: tar,rar,zip"`. -/
theorem unsupported_format_message_uses_name (c : Collab) (o : Opts)
    (name source fmt : String) (topts shash ifm? : Option String) (keep : Bool)
    (hfmt : fmt ∉ (["tar", "rar", "zip"] : List String)) :
    (extracted c o name source fmt topts shash ifm? keep).1.comment =
      name ++ " is not supported, valids: tar,rar,zip" := by
  simp [extracted, hfmt]

/-- Witness for C10: with target `/opt` and format `7z`, the message names
`/opt` and does not mention `7z`. -/
theorem unsupported_format_message_uses_name_witness :
    (extracted collabAllTrue optsProd "/opt" "src" "7z" none none none false).1.comment =
      "/opt" ++ " is not supported, valids: tar,rar,zip" :=
  unsupported_format_message_uses_name collabAllTrue optsProd "/opt" "src" "7z" none none
    none false (by decide)

/-- C1 counterexample: a request whose presence marker exists (every
existence check answers `true`) but whose format is `"7z"` does not return
Satisfied — the format gate runs before the marker check. -/
theorem marker_exists_bad_format_not_satisfied :
    collabAllTrue.directory_exists "/opt" = true ∧
    (extracted collabAllTrue optsProd "/opt" "src" "7z" none none none false).1.result
      = some false := by
  decide

/-- C1 (amended with a supported format): if the format is valid and the
presence marker exists as a directory or as a file, the call returns
Satisfied with message `"<marker> already exists"` and the trace contains
no fetch, no extraction capability and no filesystem mutation. -/
theorem marker_exists_satisfied (c : Collab) (o : Opts)
    (name source fmt : String) (topts shash ifm? : Option String) (keep : Bool)
    (hfmt : fmt ∈ (["tar", "rar", "zip"] : List String))
    (hex : c.directory_exists (ifm?.getD name) = true ∨
      c.file_exists (ifm?.getD name) = true) :
    (extracted c o name source fmt topts shash ifm? keep).1 =
      ⟨name, some true, .empty, (ifm?.getD name) ++ " already exists"⟩ ∧
    ∀ e ∈ (extracted c o name source fmt topts shash ifm? keep).2,
      e.isMutation = false := by
  have hfmt' : fmt = "tar" ∨ fmt = "rar" ∨ fmt = "zip" := by simpa using hfmt
  by_cases hd : c.directory_exists (ifm?.getD name)
  · rcases hfmt' with h | h | h <;> subst h <;>
      exact ⟨by simp [extracted, hd], by simp [extracted, hd, Effect.isMutation]⟩
  · have hf : c.file_exists (ifm?.getD name) = true := by
      rcases hex with h | h
      · exact absurd h hd
      · exact h
    rcases hfmt' with h | h | h <;> subst h <;>
      exact ⟨by simp [extracted, hd, hf], by simp [extracted, hd, hf, Effect.isMutation]⟩

/-- Witness for C1 at a concrete request whose marker is a directory. -/
theorem marker_exists_satisfied_witness :
    (extracted collabAllTrue optsProd "/opt" "src" "tar" none none none false).1 =
      ⟨"/opt", some true, .empty, ((none : Option String).getD "/opt") ++ " already exists"⟩ ∧
    ∀ e ∈ (extracted collabAllTrue optsProd "/opt" "src" "tar" none none none false).2,
      e.isMutation = false :=
  marker_exists_satisfied collabAllTrue optsProd "/opt" "src" "tar" none none none false
    (by decide) (Or.inl (by decide))

/-- C2 counterexample: in preview mode with the marker absent but format
`"7z"`, the call does not return the preview result (`result` is
`some false`, not `none`). -/
theorem preview_bad_format_not_preview_result :
    optsTest.test = true ∧
    collabAllFalse.directory_exists "/opt" = false ∧
    collabAllFalse.file_exists "/opt" = false ∧
    (extracted collabAllFalse optsTest "/opt" "src" "7z" none none none false).1.result
      = some false := by
  decide

/-- C2 (amended with a supported format): in preview mode with the marker
absent, the call performs no fetch, no directory creation, no extraction and
no mutation whatever the cache state, and returns the preview result whose
message says what would have happened. -/
theorem preview_mode_pure (c : Collab) (o : Opts)
    (name source fmt : String) (topts shash ifm? : Option String) (keep : Bool)
    (hfmt : fmt ∈ (["tar", "rar", "zip"] : List String))
    (ht : o.test = true)
    (hd : c.directory_exists (ifm?.getD name) = false)
    (hf : c.file_exists (ifm?.getD name) = false) :
    (extracted c o name source fmt topts shash ifm? keep).1.result = none ∧
    (extracted c o name source fmt topts shash ifm? keep).1.comment =
      (if c.path_exists (cacheFilename o.cachedir (ifm?.getD name) fmt)
       then "Archive " ++ source ++ " would have been extracted in " ++ name
       else "Archive " ++ source ++ " would have been downloaded in cache") ∧
    ∀ e ∈ (extracted c o name source fmt topts shash ifm? keep).2,
      e.isMutation = false := by
  have hfmt' : fmt = "tar" ∨ fmt = "rar" ∨ fmt = "zip" := by simpa using hfmt
  by_cases hp : c.path_exists (cacheFilename o.cachedir (ifm?.getD name) fmt)
  · rcases hfmt' with h | h | h <;> subst h <;>
      refine ⟨?_, ?_, ?_⟩ <;>
      simp [extracted, extractPhase, hd, hf, hp, ht, Effect.isMutation]
  · rcases hfmt' with h | h | h <;> subst h <;>
      refine ⟨?_, ?_, ?_⟩ <;>
      simp [extracted, hd, hf, hp, ht, Effect.isMutation]

/-- Witness for C2 at a concrete request with an absent cache file. -/
theorem preview_mode_pure_witness :
    (extracted collabAllFalse optsTest "/opt" "src" "tar" none none none false).1.result
      = none ∧
    (extracted collabAllFalse optsTest "/opt" "src" "tar" none none none false).1.comment =
      (if collabAllFalse.path_exists
          (cacheFilename optsTest.cachedir ((none : Option String).getD "/opt") "tar")
       then "Archive " ++ "src" ++ " would have been extracted in " ++ "/opt"
       else "Archive " ++ "src" ++ " would have been downloaded in cache") ∧
    ∀ e ∈ (extracted collabAllFalse optsTest "/opt" "src" "tar" none none none false).2,
      e.isMutation = false :=
  preview_mode_pure collabAllFalse optsTest "/opt" "src" "tar" none none none false
    (by decide) rfl rfl rfl

/-- C3: whenever the dispatch step yields a non-empty entry sequence, the
result is Changed with `directories_created = [name]` plus `if_missing` when
it differs, `extracted_files` equal to the entries, the message
`"<source> extracted in <name>"`, and the cache file is unlinked if and only
if `keep` is false. -/
theorem nonempty_extraction_changed (c : Collab) (o : Opts)
    (name source fmt : String) (topts shash ifm? : Option String) (keep : Bool)
    (files : Files) (dtrace : List Effect)
    (hfmt : fmt ∈ (["tar", "rar", "zip"] : List String))
    (hd : c.directory_exists (ifm?.getD name) = false)
    (hf : c.file_exists (ifm?.getD name) = false)
    (hp : c.path_exists (cacheFilename o.cachedir (ifm?.getD name) fmt) = true)
    (ht : o.test = false)
    (hdisp : dispatch c fmt topts (cacheFilename o.cachedir (ifm?.getD name) fmt) name
      = .ok files dtrace)
    (hne : files.len ≠ 0) :
    extracted c o name source fmt topts shash ifm? keep =
      (⟨name, some true,
        .extractedSet (if ifm?.getD name ≠ name then [name, ifm?.getD name] else [name])
          files,
        source ++ " extracted in " ++ name⟩,
       [.dirExistsQ (ifm?.getD name), .fileExistsQ (ifm?.getD name),
        .pathExistsQ (cacheFilename o.cachedir (ifm?.getD name) fmt), .makedirs name]
         ++ dtrace
         ++ (if keep then []
             else [.unlink (cacheFilename o.cachedir (ifm?.getD name) fmt)])) := by
  have hfmt' : fmt = "tar" ∨ fmt = "rar" ∨ fmt = "zip" := by simpa using hfmt
  rcases hfmt' with h | h | h <;> subst h <;>
    simp [extracted, extractPhase, aggregate, hd, hf, hp, ht, hdisp, hne]

/-- Witness for C3: tarfile yields `["a.txt", "b.txt"]`, `if_missing`
differs from `name`, `keep = false`, so the cache file is unlinked. -/
theorem nonempty_extraction_changed_witness :
    extracted collabTarTwo optsProd "/opt" "src" "tar" none none (some "/opt/sub") false =
      (⟨"/opt", some true,
        .extractedSet
          (if (some "/opt/sub" : Option String).getD "/opt" ≠ "/opt"
           then ["/opt", (some "/opt/sub" : Option String).getD "/opt"] else ["/opt"])
          (.entries ["a.txt", "b.txt"]),
        "src" ++ " extracted in " ++ "/opt"⟩,
       [.dirExistsQ ((some "/opt/sub" : Option String).getD "/opt"),
        .fileExistsQ ((some "/opt/sub" : Option String).getD "/opt"),
        .pathExistsQ
          (cacheFilename optsProd.cachedir
            ((some "/opt/sub" : Option String).getD "/opt") "tar"),
        .makedirs "/opt"]
         ++ [.tarLibExtract
              (cacheFilename optsProd.cachedir
                ((some "/opt/sub" : Option String).getD "/opt") "tar") "/opt"]
         ++ (if false then []
             else [.unlink
                (cacheFilename optsProd.cachedir
                  ((some "/opt/sub" : Option String).getD "/opt") "tar")])) :=
  nonempty_extraction_changed collabTarTwo optsProd "/opt" "src" "tar" none none
    (some "/opt/sub") false (.entries ["a.txt", "b.txt"])
    [.tarLibExtract
      (cacheFilename optsProd.cachedir ((some "/opt/sub" : Option String).getD "/opt") "tar")
      "/opt"]
    (by decide) rfl rfl rfl rfl (by decide) (by decide)

/-- C4 counterexample: on an empty extraction the comment is
`"Can't extract content of <source>"` with a capital `C`, not the claimed
`"can't extract content of <source>"`. -/
theorem empty_extraction_message_capitalized :
    (extracted collabTarEmpty optsProd "/opt" "src" "tar" none none none false).1.result
      = some false ∧
    (extracted collabTarEmpty optsProd "/opt" "src" "tar" none none none false).1.comment
      = "Can't extract content of src" ∧
    (extracted collabTarEmpty optsProd "/opt" "src" "tar" none none none false).1.comment
      ≠ "can't extract content of src" := by
  decide

/-- C4 (amended message capitalization): whenever the dispatch step yields
zero entries the result is Failed, `if_missing` is removed as rollback, and
the message is `"Can't extract content of <source>"`. -/
theorem empty_extraction_failed_rollback (c : Collab) (o : Opts)
    (name source fmt : String) (topts shash ifm? : Option String) (keep : Bool)
    (files : Files) (dtrace : List Effect)
    (hfmt : fmt ∈ (["tar", "rar", "zip"] : List String))
    (hd : c.directory_exists (ifm?.getD name) = false)
    (hf : c.file_exists (ifm?.getD name) = false)
    (hp : c.path_exists (cacheFilename o.cachedir (ifm?.getD name) fmt) = true)
    (ht : o.test = false)
    (hdisp : dispatch c fmt topts (cacheFilename o.cachedir (ifm?.getD name) fmt) name
      = .ok files dtrace)
    (hne : files.len = 0) :
    extracted c o name source fmt topts shash ifm? keep =
      (⟨name, some false, .empty, "Can't extract content of " ++ source⟩,
       [.dirExistsQ (ifm?.getD name), .fileExistsQ (ifm?.getD name),
        .pathExistsQ (cacheFilename o.cachedir (ifm?.getD name) fmt), .makedirs name]
         ++ dtrace ++ [.removePath (ifm?.getD name)]) := by
  have hfmt' : fmt = "tar" ∨ fmt = "rar" ∨ fmt = "zip" := by simpa using hfmt
  rcases hfmt' with h | h | h <;> subst h <;>
    simp [extracted, extractPhase, aggregate, hd, hf, hp, ht, hdisp, hne]

/-- Witness for C4: tarfile yields no entries, the marker is removed. -/
theorem empty_extraction_failed_rollback_witness :
    extracted collabTarEmpty optsProd "/opt" "src" "tar" none none none false =
      (⟨"/opt", some false, .empty, "Can't extract content of " ++ "src"⟩,
       [.dirExistsQ ((none : Option String).getD "/opt"),
        .fileExistsQ ((none : Option String).getD "/opt"),
        .pathExistsQ
          (cacheFilename optsProd.cachedir ((none : Option String).getD "/opt") "tar"),
        .makedirs "/opt"]
         ++ [.tarLibExtract
              (cacheFilename optsProd.cachedir ((none : Option String).getD "/opt") "tar")
              "/opt"]
         ++ [.removePath ((none : Option String).getD "/opt")]) :=
  empty_extraction_failed_rollback collabTarEmpty optsProd "/opt" "src" "tar" none none
    none false (.entries [])
    [.tarLibExtract
      (cacheFilename optsProd.cachedir ((none : Option String).getD "/opt") "tar") "/opt"]
    (by decide) rfl rfl rfl rfl (by decide) (by decide)

/-- C6: when the fetch collaborator reports failure, its result is returned
unchanged as the overall result, and the trace shows exactly one fetch call
with nothing after it — no wrapping, no reinterpretation, no retry. -/
theorem fetch_failure_passthrough (c : Collab) (o : Opts)
    (name source fmt : String) (topts shash ifm? : Option String) (keep : Bool)
    (hfmt : fmt ∈ (["tar", "rar", "zip"] : List String))
    (hd : c.directory_exists (ifm?.getD name) = false)
    (hf : c.file_exists (ifm?.getD name) = false)
    (hp : c.path_exists (cacheFilename o.cachedir (ifm?.getD name) fmt) = false)
    (ht : o.test = false)
    (hfail : (c.state_high_fetch (cacheFilename o.cachedir (ifm?.getD name) fmt)
      source shash).result = some false) :
    extracted c o name source fmt topts shash ifm? keep =
      (c.state_high_fetch (cacheFilename o.cachedir (ifm?.getD name) fmt) source shash,
       [.dirExistsQ (ifm?.getD name), .fileExistsQ (ifm?.getD name),
        .pathExistsQ (cacheFilename o.cachedir (ifm?.getD name) fmt),
        .fetchCall (cacheFilename o.cachedir (ifm?.getD name) fmt) source shash]) := by
  have hfmt' : fmt = "tar" ∨ fmt = "rar" ∨ fmt = "zip" := by simpa using hfmt
  rcases hfmt' with h | h | h <;> subst h <;>
    simp [extracted, hd, hf, hp, ht, hfail]

/-- Witness for C6: a fetch that fails is propagated verbatim. -/
theorem fetch_failure_passthrough_witness :
    extracted collabAllFalse optsProd "/opt" "src" "tar" none none none false =
      (collabAllFalse.state_high_fetch
        (cacheFilename optsProd.cachedir ((none : Option String).getD "/opt") "tar")
        "src" none,
       [.dirExistsQ ((none : Option String).getD "/opt"),
        .fileExistsQ ((none : Option String).getD "/opt"),
        .pathExistsQ
          (cacheFilename optsProd.cachedir ((none : Option String).getD "/opt") "tar"),
        .fetchCall
          (cacheFilename optsProd.cachedir ((none : Option String).getD "/opt") "tar")
          "src" none]) :=
  fetch_failure_passthrough collabAllFalse optsProd "/opt" "src" "tar" none none none
    false (by decide) rfl rfl rfl rfl rfl

/-- C7: option normalization guarantees an extract flag `x` and a
file-specifier flag `f` are present, prepending each when syntactically
absent, and preserves the original options as a suffix; in particular
`"J"` normalizes to `"-f -x J"`. -/
theorem tar_options_normalized (t : String) :
    hasFlag (normalizeTarOptions t) 'x' = true ∧
    hasFlag (normalizeTarOptions t) 'f' = true ∧
    (∃ p, normalizeTarOptions t = p ++ t) ∧
    normalizeTarOptions "J" = "-f -x J" := by
  have unf : normalizeTarOptions t =
      if hasFlag (if hasFlag t 'x' then t else "-x " ++ t) 'f'
      then (if hasFlag t 'x' then t else "-x " ++ t)
      else "-f " ++ (if hasFlag t 'x' then t else "-x " ++ t) := rfl
  have h1 : hasFlag "-x " 'x' = true := by decide
  have h2 : hasFlag "-x " 'f' = false := by decide
  have h3 : hasFlag "-f " 'f' = true := by decide
  have h4 : hasFlag "-f " 'x' = false := by decide
  by_cases hx : hasFlag t 'x'
  · by_cases hf : hasFlag t 'f'
    · have e : normalizeTarOptions t = t := by rw [unf]; simp [hx, hf]
      exact ⟨by rw [e]; exact hx, by rw [e]; exact hf, ⟨"", by rw [e]; simp⟩, by decide⟩
    · have e : normalizeTarOptions t = "-f " ++ t := by rw [unf]; simp [hx, hf]
      refine ⟨?_, ?_, ⟨"-f ", e⟩, by decide⟩
      · rw [e]; simp [hasFlag_append, h4, hx]
      · rw [e]; simp [hasFlag_append, h3]
  · have estep : (if hasFlag t 'x' then t else "-x " ++ t) = "-x " ++ t := by
      rw [if_neg hx]
    by_cases hf : hasFlag t 'f'
    · have e : normalizeTarOptions t = "-x " ++ t := by
        rw [unf, estep, hasFlag_append, h2]; simp [hf]
      refine ⟨?_, ?_, ⟨"-x ", e⟩, by decide⟩
      · rw [e]; simp [hasFlag_append, h1]
      · rw [e]; simp [hasFlag_append, h2, hf]
    · have e : normalizeTarOptions t = "-f " ++ ("-x " ++ t) := by
        rw [unf, estep, hasFlag_append, h2]; simp [hf]
      refine ⟨?_, ?_,
        ⟨"-f -x ", e.trans (String.append_assoc "-f " "-x " t).symm⟩, by decide⟩
      · rw [e]; simp [hasFlag_append, h1, h4]
      · rw [e]; simp [hasFlag_append, h3]

/-- Witness for C7 at `toolOptions = "J"`. -/
theorem tar_options_normalized_witness :
    hasFlag (normalizeTarOptions "J") 'x' = true ∧
    hasFlag (normalizeTarOptions "J") 'f' = true ∧
    (∃ p, normalizeTarOptions "J" = p ++ "J") ∧
    normalizeTarOptions "J" = "-f -x J" :=
  tar_options_normalized "J"

/-- C8: when the external tar tool exits nonzero the call returns Failed
with the raw command result as the change set, the comment still empty, and
the trace stops at the tool invocation — no cache unlink and no marker
rollback follow. -/
theorem tool_failure_raw_result (c : Collab) (o : Opts)
    (name source topts : String) (shash ifm? : Option String) (keep : Bool)
    (hd : c.directory_exists (ifm?.getD name) = false)
    (hf : c.file_exists (ifm?.getD name) = false)
    (hp : c.path_exists (cacheFilename o.cachedir (ifm?.getD name) "tar") = true)
    (ht : o.test = false)
    (hret : (c.cmd_run_all
      (tarCommand (normalizeTarOptions topts)
        (cacheFilename o.cachedir (ifm?.getD name) "tar")) name).retcode ≠ 0) :
    extracted c o name source "tar" (some topts) shash ifm? keep =
      (⟨name, some false,
        .cmdOutput (c.cmd_run_all
          (tarCommand (normalizeTarOptions topts)
            (cacheFilename o.cachedir (ifm?.getD name) "tar")) name), ""⟩,
       [.dirExistsQ (ifm?.getD name), .fileExistsQ (ifm?.getD name),
        .pathExistsQ (cacheFilename o.cachedir (ifm?.getD name) "tar"),
        .makedirs name,
        .runShell
          (tarCommand (normalizeTarOptions topts)
            (cacheFilename o.cachedir (ifm?.getD name) "tar")) name]) := by
  simp [extracted, extractPhase, dispatch, hd, hf, hp, ht, hret]

/-- Witness for C8: the tool exits 2 and the command result is attached. -/
theorem tool_failure_raw_result_witness :
    extracted collabToolFail optsProd "/opt" "src" "tar" (some "J") none none false =
      (⟨"/opt", some false,
        .cmdOutput (collabToolFail.cmd_run_all
          (tarCommand (normalizeTarOptions "J")
            (cacheFilename optsProd.cachedir ((none : Option String).getD "/opt") "tar"))
          "/opt"), ""⟩,
       [.dirExistsQ ((none : Option String).getD "/opt"),
        .fileExistsQ ((none : Option String).getD "/opt"),
        .pathExistsQ
          (cacheFilename optsProd.cachedir ((none : Option String).getD "/opt") "tar"),
        .makedirs "/opt",
        .runShell
          (tarCommand (normalizeTarOptions "J")
            (cacheFilename optsProd.cachedir ((none : Option String).getD "/opt") "tar"))
          "/opt"]) :=
  tool_failure_raw_result collabToolFail optsProd "/opt" "src" "J" none none false
    rfl rfl rfl rfl (by decide)

/-- C9: when the external tar tool exits zero the final result is always
Changed — the empty capture is replaced by the placeholder
`"no tar output so far"`, so the empty-extraction Failed branch and its
`file.remove` rollback of `if_missing` are unreachable on this path. -/
theorem tool_success_always_changed (c : Collab) (o : Opts)
    (name source topts : String) (shash ifm? : Option String) (keep : Bool)
    (hd : c.directory_exists (ifm?.getD name) = false)
    (hf : c.file_exists (ifm?.getD name) = false)
    (hp : c.path_exists (cacheFilename o.cachedir (ifm?.getD name) "tar") = true)
    (ht : o.test = false)
    (hret : (c.cmd_run_all
      (tarCommand (normalizeTarOptions topts)
        (cacheFilename o.cachedir (ifm?.getD name) "tar")) name).retcode = 0) :
    (extracted c o name source "tar" (some topts) shash ifm? keep).1.result = some true ∧
    Effect.removePath (ifm?.getD name) ∉
      (extracted c o name source "tar" (some topts) shash ifm? keep).2 := by
  have hlen : ∀ s : String,
      Files.len (.raw (if s = "" then "no tar output so far" else s)) ≠ 0 := by
    intro s
    by_cases hs : s = ""
    · rw [if_pos hs]; decide
    · rw [if_neg hs]
      simp only [Files.len]
      intro h0
      exact hs (String.ext (List.length_eq_zero.mp h0))
  constructor
  · simp [extracted, extractPhase, dispatch, aggregate, hd, hf, hp, ht, hret, hlen]
  · simp [extracted, extractPhase, dispatch, aggregate, hd, hf, hp, ht, hret, hlen]

/-- Witness for C9: the tool exits 0 with empty output; the placeholder
makes the outcome Changed and no rollback happens. -/
theorem tool_success_always_changed_witness :
    (extracted collabToolQuiet optsProd "/opt" "src" "tar" (some "J") none none
      false).1.result = some true ∧
    Effect.removePath ((none : Option String).getD "/opt") ∉
      (extracted collabToolQuiet optsProd "/opt" "src" "tar" (some "J") none none
        false).2 :=
  tool_success_always_changed collabToolQuiet optsProd "/opt" "src" "J" none none false
    rfl rfl rfl rfl rfl

end ArchiveState
